import Mathlib

/-!
Verification of the renfield-mcp-calendar aggregation and visibility layer.

The definitions below are a shallow embedding of
`src/renfield_mcp_calendar/server.py`, `config.py` and `backends/base.py`.

Modelling conventions:
* Timestamps are naive local datetimes at second granularity, embedded as
  `Nat` seconds since an arbitrary local epoch (the code strips timezones
  and never uses sub-second precision on the paths considered here).
* `dateutil.parser.parse` is an external collaborator; it is passed in as an
  abstract `ParseFn` (`none` models a raised parse error).
* A backend (EWS/Google/CalDAV adapter, external collaborator) is a record
  of its five operations; `Except String` models a raised provider error.
  `_get_backend` is passed in as an abstract `GetBackend`
  (`none` models `_get_backend` returning `None`, i.e. unknown name; inside a
  single call construction is assumed to succeed, as `config.load_config`
  guarantees every registered account has a valid type).
* The account registry (`_accounts`, a Python dict built once at startup) is
  a list of accounts in insertion order; dict keys are unique.
* Python's `list.sort(key=lambda e: e.start)` (a stable sort by start time)
  is embedded as a stable insertion sort by start time.
-/

namespace RenfieldCalendar

/-- Naive local timestamp, seconds since a local epoch. -/
abbrev DateTime := Nat

/-- `dt.replace(hour=0, minute=0, second=0, microsecond=0)` — midnight of `t`'s day. -/
def dayFloor (t : DateTime) : DateTime := t / 86400 * 86400

/-- `dt.replace(hour=23, minute=59, second=59)` — `t`'s date at 23:59:59. -/
def endOfDay (t : DateTime) : DateTime := dayFloor t + 86399

/-- `config.CalendarAccount` (the opaque provider-config bag is omitted:
no claim depends on it). -/
structure CalendarAccount where
  name : String
  label : String
  type : String
  visibility : String := "shared"
  owner_id : Option Int := none
deriving DecidableEq

/-- `backends.base.CalendarEvent`. The Python field `end` is `end_` here
(`end` is a Lean keyword). -/
structure CalendarEvent where
  id : String
  calendar : String
  title : String
  start : DateTime
  end_ : DateTime
  description : String := ""
  location : String := ""
  all_day : Bool := false
deriving DecidableEq

/-- The `**kwargs` dict built by `update_event` (absent key = `none`). -/
structure UpdateFields where
  title : Option String := none
  start : Option DateTime := none
  end_ : Option DateTime := none
  description : Option String := none
  location : Option String := none
deriving DecidableEq

/-- `backends.base.CalendarBackend` protocol: the five-operation contract.
Each operation returns `Except String` (a raised provider error carries a
message string). -/
structure Backend where
  list_events : DateTime → DateTime → Except String (List CalendarEvent)
  create_event : String → DateTime → DateTime → String → String → Except String CalendarEvent
  update_event : String → UpdateFields → Except String CalendarEvent
  delete_event : String → Except String Bool
  get_event : String → Except String CalendarEvent

/-- Abstract `dateutil.parser.parse`: `none` models a raised parse error. -/
abbrev ParseFn := String → Option DateTime

/-- Abstract `server._get_backend`: `none` models an unknown calendar name. -/
abbrev GetBackend := String → Option Backend

/-- Entry of the `list_calendars` result. -/
structure CalendarInfo where
  name : String
  label : String
  type : String
deriving DecidableEq

/-- Result of the `list_calendars` tool: `{calendars: [...]}` or `{error}`. -/
inductive LCResult
  | err (msg : String)
  | ok (calendars : List CalendarInfo)
deriving DecidableEq

/-- Success payload of `list_events`; `errors = none` models the `errors`
key being absent from the result dict. -/
structure EventsPayload where
  calendars_queried : List String
  start : DateTime
  end_ : DateTime
  count : Nat
  events : List CalendarEvent
  errors : Option (List String)
deriving DecidableEq

/-- Result of the `list_events` tool. -/
inductive LEResult
  | err (msg : String)
  | ok (payload : EventsPayload)
deriving DecidableEq

/-- Result of `create_event` / `update_event` / `get_event`:
`{success, event}` (resp. `{event}`) or `{error}`. -/
inductive EvResult
  | err (msg : String)
  | ok (event : CalendarEvent)
deriving DecidableEq

/-- Result of `delete_event`: `{success, message}` or `{error}`. -/
inductive DelResult
  | err (msg : String)
  | ok (message : String)
deriving DecidableEq

/-- The `list(_accounts.keys())` rendering used in the unknown-calendar error. -/
def availableList (accounts : List CalendarAccount) : String :=
  "[" ++ String.intercalate ", " (accounts.map (fun a => "'" ++ a.name ++ "'")) ++ "]"

/-- The unknown-calendar error text of `server._validate_calendar`. -/
def unknownCalendarMsg (accounts : List CalendarAccount) (calendar : String) : String :=
  "Unknown calendar '" ++ calendar ++ "'. Available: " ++ availableList accounts

/-- The no-calendars error text of `server._validate_calendar`. -/
def noCalendarsMsg : String := "No calendars configured. Set CALENDAR_CONFIG env var."

/-- `server._validate_calendar`: error dict if the calendar is invalid,
`none` if valid. -/
def validate_calendar (accounts : List CalendarAccount) (calendar : String) : Option String :=
  if accounts.isEmpty then some noCalendarsMsg
  else if (accounts.find? (fun a => a.name == calendar)).isNone then
    some (unknownCalendarMsg accounts calendar)
  else none

/-- Ordering of events by start time (the sort key `lambda e: e.start`). -/
def startLE (a b : CalendarEvent) : Prop := a.start ≤ b.start

instance : DecidableRel startLE := fun a b => Nat.decLe a.start b.start

instance : IsTotal CalendarEvent startLE := ⟨fun a b => Nat.le_total a.start b.start⟩

instance : IsTrans CalendarEvent startLE := ⟨fun _ _ _ h₁ h₂ => Nat.le_trans h₁ h₂⟩

/-- `all_events.sort(key=lambda e: e.start)` — stable sort by start time. -/
def sortByStart (events : List CalendarEvent) : List CalendarEvent :=
  events.insertionSort startLE

/-- The per-calendar fetch loop of `server.list_events` (lines 163-173):
accumulates events of successful accounts and one error string per failure,
in loop order, catching each raised error without aborting the rest. -/
def fetchAll (gb : GetBackend) (dtStart dtEnd : DateTime) :
    List String → List CalendarEvent × List String
  | [] => ([], [])
  | c :: rest =>
    let acc := fetchAll gb dtStart dtEnd rest
    match gb c with
    | none => (acc.1, ("Backend not available: " ++ c) :: acc.2)
    | some b =>
      match b.list_events dtStart dtEnd with
      | Except.ok es => (es ++ acc.1, acc.2)
      | Except.error e => (acc.1, (c ++ ": " ++ e) :: acc.2)

/-- `server.list_calendars` (the tool as written in `server.py`). -/
def list_calendars (accounts : List CalendarAccount) : LCResult :=
  if accounts.isEmpty then .err "No calendars configured"
  else .ok (accounts.map (fun a => ⟨a.name, a.label, a.type⟩))

/-- Start-of-range resolution in `server.list_events`: parse `start` if
given (`if start:` — nonempty string), else default to today 00:00. -/
def parseStartOrDefault (parse : ParseFn) (now : DateTime) (start : String) :
    Except String DateTime :=
  if start ≠ "" then
    match parse start with
    | some d => Except.ok d
    | none => Except.error ("Invalid start date: " ++ start)
  else Except.ok (dayFloor now)

/-- End-of-range resolution in `server.list_events`: parse `end` if given,
else default to `dt_start.replace(hour=23, minute=59, second=59)`. -/
def parseEndOrDefault (parse : ParseFn) (dtStart : DateTime) (end_ : String) :
    Except String DateTime :=
  if end_ ≠ "" then
    match parse end_ with
    | some d => Except.ok d
    | none => Except.error ("Invalid end date: " ++ end_)
  else Except.ok (endOfDay dtStart)

/-- Calendar selection in `server.list_events`: a named calendar is
validated; empty name selects all configured calendars. -/
def calendarsToQuery (accounts : List CalendarAccount) (calendar : String) :
    Except String (List String) :=
  if calendar ≠ "" then
    match validate_calendar accounts calendar with
    | some e => Except.error e
    | none => Except.ok [calendar]
  else Except.ok (accounts.map (fun a => a.name))

/-- `server.list_events` (the tool as written in `server.py`). -/
def list_events (accounts : List CalendarAccount) (gb : GetBackend) (parse : ParseFn)
    (now : DateTime) (calendar start end_ : String) : LEResult :=
  match parseStartOrDefault parse now start with
  | Except.error m => .err m
  | Except.ok dtStart =>
    match parseEndOrDefault parse dtStart end_ with
    | Except.error m => .err m
    | Except.ok dtEnd =>
      match calendarsToQuery accounts calendar with
      | Except.error m => .err m
      | Except.ok cals =>
        let fetched := fetchAll gb dtStart dtEnd cals
        let sortedEvents := sortByStart fetched.1
        .ok { calendars_queried := cals
              start := dtStart
              end_ := dtEnd
              count := sortedEvents.length
              events := sortedEvents
              errors := if fetched.2 ≠ [] then some fetched.2 else none }

/-- `server.create_event` (the tool as written in `server.py`). -/
def create_event (accounts : List CalendarAccount) (gb : GetBackend) (parse : ParseFn)
    (calendar title start end_ description location : String) : EvResult :=
  match validate_calendar accounts calendar with
  | some e => .err e
  | none =>
    match parse start with
    | none => .err ("Invalid start date: " ++ start)
    | some dtStart =>
      match parse end_ with
      | none => .err ("Invalid end date: " ++ end_)
      | some dtEnd =>
        match gb calendar with
        | none => .err ("Backend not available: " ++ calendar)
        | some b =>
          match b.create_event title dtStart dtEnd description location with
          | Except.ok ev => .ok ev
          | Except.error e => .err ("Failed to create event: " ++ e)

/-- One optional datetime field of `update_event`'s kwargs: parsed when the
argument is a nonempty string, erroring on parse failure. -/
def parseOptField (parse : ParseFn) (fieldName value : String) :
    Except String (Option DateTime) :=
  if value ≠ "" then
    match parse value with
    | some d => Except.ok (some d)
    | none => Except.error ("Invalid " ++ fieldName ++ " date: " ++ value)
  else Except.ok none

/-- The kwargs-building block of `server.update_event` (lines 258-274). -/
def buildKwargs (parse : ParseFn) (title start end_ description location : String) :
    Except String UpdateFields :=
  match parseOptField parse "start" start with
  | Except.error m => Except.error m
  | Except.ok s? =>
    match parseOptField parse "end" end_ with
    | Except.error m => Except.error m
    | Except.ok e? =>
      Except.ok
        { title := if title ≠ "" then some title else none
          start := s?
          end_ := e?
          description := if description ≠ "" then some description else none
          location := if location ≠ "" then some location else none }

/-- `if not kwargs:` — no optional field was supplied. -/
def kwargsEmpty (k : UpdateFields) : Bool :=
  k.title.isNone && k.start.isNone && k.end_.isNone && k.description.isNone && k.location.isNone

/-- `server.update_event` (the tool as written in `server.py`). -/
def update_event (accounts : List CalendarAccount) (gb : GetBackend) (parse : ParseFn)
    (calendar event_id title start end_ description location : String) : EvResult :=
  match validate_calendar accounts calendar with
  | some e => .err e
  | none =>
    match buildKwargs parse title start end_ description location with
    | Except.error m => .err m
    | Except.ok k =>
      if kwargsEmpty k then .err "No fields to update"
      else
        match gb calendar with
        | none => .err ("Backend not available: " ++ calendar)
        | some b =>
          match b.update_event event_id k with
          | Except.ok ev => .ok ev
          | Except.error e => .err ("Failed to update event: " ++ e)

/-- `server.delete_event` (the tool as written in `server.py`): a backend
`False` (event not deleted) is surfaced as an error, not a false success. -/
def delete_event (accounts : List CalendarAccount) (gb : GetBackend)
    (calendar event_id : String) : DelResult :=
  match validate_calendar accounts calendar with
  | some e => .err e
  | none =>
    match gb calendar with
    | none => .err ("Backend not available: " ++ calendar)
    | some b =>
      match b.delete_event event_id with
      | Except.ok true => .ok ("Event deleted from " ++ calendar)
      | Except.ok false => .err ("Event not found: " ++ event_id)
      | Except.error e => .err ("Failed to delete event: " ++ e)

/-- `server.get_event` (the tool as written in `server.py`). -/
def get_event (accounts : List CalendarAccount) (gb : GetBackend)
    (calendar event_id : String) : EvResult :=
  match validate_calendar accounts calendar with
  | some e => .err e
  | none =>
    match gb calendar with
    | none => .err ("Backend not available: " ++ calendar)
    | some b =>
      match b.get_event event_id with
      | Except.ok ev => .ok ev
      | Except.error e => .err ("Failed to get event: " ++ e)

/-!
The repository's visibility/user_id layer and the notification generator are
exercised by `tests/test_server.py` (which calls `list_calendars(user_id=…)`,
`get_pending_notifications(…)` and asserts "Access denied" errors) but the
corresponding server code is not present under `src/`; the definitions below
marked "Modelled from the spec" reconstruct that missing layer from spec
§4.3, §4.5, §6 and §7.
-/

/-- Modelled from the spec: the per-account visibility predicate of §4.3.
An unset requester (`none`) sees everything; a set requester sees an account
iff its visibility is "shared", or it is "owner" and `owner_id` equals the
requester. -/
def account_visible (a : CalendarAccount) (requester_id : Option Int) : Bool :=
  match requester_id with
  | none => true
  | some uid => a.visibility == "shared" || (a.visibility == "owner" && a.owner_id == some uid)

/-- Modelled from the spec: `visible_accounts(all_accounts, requester_id)`
of §4.3 — the subset of accounts the requester may see, in registry order. -/
def visible_accounts (accounts : List CalendarAccount) (requester_id : Option Int) :
    List CalendarAccount :=
  match requester_id with
  | none => accounts
  | some uid => accounts.filter (fun a => account_visible a (some uid))

/-- Modelled from the spec: the access-denied error text (§4.3/§7 require a
distinguishable marker; the tests assert the text contains "Access denied"). -/
def accessDeniedMsg (calendar : String) : String :=
  "Access denied: calendar '" ++ calendar ++ "' is not visible to this user"

/-- Modelled from the spec: `_validate_calendar` extended with the requester
identity — the §4.3 filter applied before touching any backend, yielding an
access-denied error distinct from the unknown-calendar error. -/
def validate_calendar_vis (accounts : List CalendarAccount) (calendar : String)
    (user_id : Option Int) : Option String :=
  if accounts.isEmpty then some noCalendarsMsg
  else
    match accounts.find? (fun a => a.name == calendar) with
    | none => some (unknownCalendarMsg accounts calendar)
    | some a => if account_visible a user_id then none else some (accessDeniedMsg calendar)

/-- Modelled from the spec: `list_calendars(user_id?)` listing only the
accounts visible to the requester (§6, test scenario in §8). -/
def list_calendars_vis (accounts : List CalendarAccount) (user_id : Option Int) : LCResult :=
  if accounts.isEmpty then .err "No calendars configured"
  else .ok ((visible_accounts accounts user_id).map (fun a => ⟨a.name, a.label, a.type⟩))

/-- Modelled from the spec: calendar selection of `list_events(…, user_id?)` —
a named calendar passes the §4.3 filter, the all-calendars case silently
drops non-visible accounts (§9). -/
def calendarsToQueryVis (accounts : List CalendarAccount) (calendar : String)
    (user_id : Option Int) : Except String (List String) :=
  if calendar ≠ "" then
    match validate_calendar_vis accounts calendar user_id with
    | some e => Except.error e
    | none => Except.ok [calendar]
  else Except.ok ((visible_accounts accounts user_id).map (fun a => a.name))

/-- Modelled from the spec: `list_events` with per-user visibility
filtering; identical to `list_events` except for calendar selection. -/
def list_events_vis (accounts : List CalendarAccount) (gb : GetBackend) (parse : ParseFn)
    (now : DateTime) (calendar start end_ : String) (user_id : Option Int) : LEResult :=
  match parseStartOrDefault parse now start with
  | Except.error m => .err m
  | Except.ok dtStart =>
    match parseEndOrDefault parse dtStart end_ with
    | Except.error m => .err m
    | Except.ok dtEnd =>
      match calendarsToQueryVis accounts calendar user_id with
      | Except.error m => .err m
      | Except.ok cals =>
        let fetched := fetchAll gb dtStart dtEnd cals
        let sortedEvents := sortByStart fetched.1
        .ok { calendars_queried := cals
              start := dtStart
              end_ := dtEnd
              count := sortedEvents.length
              events := sortedEvents
              errors := if fetched.2 ≠ [] then some fetched.2 else none }

/-- Modelled from the spec: `create_event` with the §4.3 filter in place of
`_validate_calendar`. -/
def create_event_vis (accounts : List CalendarAccount) (gb : GetBackend) (parse : ParseFn)
    (calendar title start end_ description location : String) (user_id : Option Int) : EvResult :=
  match validate_calendar_vis accounts calendar user_id with
  | some e => .err e
  | none =>
    match parse start with
    | none => .err ("Invalid start date: " ++ start)
    | some dtStart =>
      match parse end_ with
      | none => .err ("Invalid end date: " ++ end_)
      | some dtEnd =>
        match gb calendar with
        | none => .err ("Backend not available: " ++ calendar)
        | some b =>
          match b.create_event title dtStart dtEnd description location with
          | Except.ok ev => .ok ev
          | Except.error e => .err ("Failed to create event: " ++ e)

/-- Modelled from the spec: `update_event` with the §4.3 filter in place of
`_validate_calendar`. -/
def update_event_vis (accounts : List CalendarAccount) (gb : GetBackend) (parse : ParseFn)
    (calendar event_id title start end_ description location : String)
    (user_id : Option Int) : EvResult :=
  match validate_calendar_vis accounts calendar user_id with
  | some e => .err e
  | none =>
    match buildKwargs parse title start end_ description location with
    | Except.error m => .err m
    | Except.ok k =>
      if kwargsEmpty k then .err "No fields to update"
      else
        match gb calendar with
        | none => .err ("Backend not available: " ++ calendar)
        | some b =>
          match b.update_event event_id k with
          | Except.ok ev => .ok ev
          | Except.error e => .err ("Failed to update event: " ++ e)

/-- Modelled from the spec: `delete_event` with the §4.3 filter in place of
`_validate_calendar`. -/
def delete_event_vis (accounts : List CalendarAccount) (gb : GetBackend)
    (calendar event_id : String) (user_id : Option Int) : DelResult :=
  match validate_calendar_vis accounts calendar user_id with
  | some e => .err e
  | none =>
    match gb calendar with
    | none => .err ("Backend not available: " ++ calendar)
    | some b =>
      match b.delete_event event_id with
      | Except.ok true => .ok ("Event deleted from " ++ calendar)
      | Except.ok false => .err ("Event not found: " ++ event_id)
      | Except.error e => .err ("Failed to delete event: " ++ e)

/-- Modelled from the spec: `get_event` with the §4.3 filter in place of
`_validate_calendar`. -/
def get_event_vis (accounts : List CalendarAccount) (gb : GetBackend)
    (calendar event_id : String) (user_id : Option Int) : EvResult :=
  match validate_calendar_vis accounts calendar user_id with
  | some e => .err e
  | none =>
    match gb calendar with
    | none => .err ("Backend not available: " ++ calendar)
    | some b =>
      match b.get_event event_id with
      | Except.ok ev => .ok ev
      | Except.error e => .err ("Failed to get event: " ++ e)

/-- Modelled from the spec: the Notification record of §3 (`data` holds
`calendar` and `event_id`, flattened here). -/
structure Notification where
  event_type : String
  title : String
  message : String
  urgency : String
  dedup_key : String
  data_calendar : String
  data_event_id : String
  tts : Bool
deriving DecidableEq

/-- Modelled from the spec: `round((event.start - now) / 1 minute)` of §4.5,
rounding seconds to the nearest minute (half rounds up). -/
def roundMinutes (deltaSeconds : Nat) : Nat := (deltaSeconds + 30) / 60

/-- Modelled from the spec: `calendar:{account}:{event_id}:{threshold}min`. -/
def dedupKey (account eventId thresholdSuffix : String) : String :=
  "calendar:" ++ account ++ ":" ++ eventId ++ ":" ++ thresholdSuffix

/-- Modelled from the spec: the 30-minute reminder message, mentioning
"30 Minuten" and the account's label (§4.5, tests). -/
def msg30 (label title : String) : String :=
  "Termin '" ++ title ++ "' (" ++ label ++ ") beginnt in 30 Minuten"

/-- Modelled from the spec: the 5-minute reminder message. -/
def msg5 (label title : String) : String :=
  "Termin '" ++ title ++ "' (" ++ label ++ ") beginnt in 5 Minuten"

/-- Modelled from the spec: threshold matching of §4.5 — exactly 30 rounded
minutes out emits one "info" notification, exactly 5 one "warning", anything
else none; every notification carries `tts: true`. -/
def notif_for_event (account label : String) (now : DateTime) (e : CalendarEvent) :
    List Notification :=
  let m := roundMinutes (e.start - now)
  if m == 30 then
    [{ event_type := "calendar.reminder_upcoming"
       title := e.title
       message := msg30 label e.title
       urgency := "info"
       dedup_key := dedupKey account e.id "30min"
       data_calendar := account
       data_event_id := e.id
       tts := true }]
  else if m == 5 then
    [{ event_type := "calendar.reminder_upcoming"
       title := e.title
       message := msg5 label e.title
       urgency := "warning"
       dedup_key := dedupKey account e.id "5min"
       data_calendar := account
       data_event_id := e.id
       tts := true }]
  else []

/-- Modelled from the spec: `get_pending_notifications(lookahead_minutes,
user_id?)` of §4.5 — filter accounts by visibility, fetch each visible
account's events between now and now + lookahead (per-account failures are
skipped, never fatal), and emit threshold reminders. -/
def pending_notifications (accounts : List CalendarAccount) (gb : GetBackend)
    (now : DateTime) (lookahead_minutes : Nat) (user_id : Option Int) : List Notification :=
  (visible_accounts accounts user_id).flatMap (fun a =>
    match gb a.name with
    | none => []
    | some b =>
      match b.list_events now (now + lookahead_minutes * 60) with
      | Except.error _ => []
      | Except.ok evs => evs.flatMap (notif_for_event a.name a.label now))

/-!  Helper notions used by the theorem statements.  -/

/-- `sub` occurs somewhere inside `s` (the Python `sub in s` test). -/
abbrev mentions (sub s : String) : Prop := sub.data <:+: s.data

/-- The error text starts with the access-denied marker. -/
abbrev hasDeniedMarker (m : String) : Prop := "Access denied".data <+: m.data

/-- Events contributed by one account in the fetch loop: its backend's
events if the call succeeded, nothing otherwise. -/
def okEvents (gb : GetBackend) (dtStart dtEnd : DateTime) (c : String) : List CalendarEvent :=
  match gb c with
  | some b =>
    match b.list_events dtStart dtEnd with
    | Except.ok es => es
    | Except.error _ => []
  | none => []

/-- The error-list entry contributed by one account in the fetch loop:
`"{name}: {error}"` if its backend raised, nothing if it succeeded. -/
def errEntry (gb : GetBackend) (dtStart dtEnd : DateTime) (c : String) : Option String :=
  match gb c with
  | some b =>
    match b.list_events dtStart dtEnd with
    | Except.ok _ => none
    | Except.error e => some (c ++ ": " ++ e)
  | none => none

/-- Sum of the successful accounts' event counts. -/
def successTotal (gb : GetBackend) (dtStart dtEnd : DateTime) (cals : List String) : Nat :=
  (cals.map (fun c => (okEvents gb dtStart dtEnd c).length)).sum

/-- Number of accounts whose backend raised. -/
def failedCount (gb : GetBackend) (dtStart dtEnd : DateTime) (cals : List String) : Nat :=
  (cals.filter (fun c => (errEntry gb dtStart dtEnd c).isSome)).length

/-- The calendar names in a `list_calendars` result (empty on error). -/
def lcNames : LCResult → List String
  | .err _ => []
  | .ok cs => cs.map (fun c => c.name)

/-!  Concrete fixtures (mirroring the test suite's accounts and backends). -/

/-- The "work" account of the test scenario: owner-restricted, owner 1. -/
def workAcct : CalendarAccount :=
  { name := "work", label := "Firmenkalender", type := "ews",
    visibility := "owner", owner_id := some 1 }

/-- The "family" account of the test scenario: shared. -/
def familyAcct : CalendarAccount :=
  { name := "family", label := "Familienkalender", type := "google" }

/-- Two-account registry: work (owner, user 1) and family (shared). -/
def accts2 : List CalendarAccount := [workAcct, familyAcct]

/-- A concrete event on the "work" calendar (14:00-15:00 on day 0). -/
def evWork : CalendarEvent :=
  { id := "e1", calendar := "work", title := "Meeting", start := 50400, end_ := 54000 }

/-- A backend whose `list_events` succeeds with fixed events. -/
def okBackend (evs : List CalendarEvent) : Backend :=
  { list_events := fun _ _ => Except.ok evs
    create_event := fun title s e d l =>
      Except.ok { id := "new-1", calendar := "work", title := title, start := s, end_ := e,
                  description := d, location := l }
    update_event := fun _ _ => Except.error "not supported"
    delete_event := fun _ => Except.ok true
    get_event := fun _ => Except.error "not supported" }

/-- A backend that raises "Connection failed" on every operation. -/
def failBackend : Backend :=
  { list_events := fun _ _ => Except.error "Connection failed"
    create_event := fun _ _ _ _ _ => Except.error "Connection failed"
    update_event := fun _ _ => Except.error "Connection failed"
    delete_event := fun _ => Except.error "Connection failed"
    get_event := fun _ => Except.error "Connection failed" }

/-- Backend map: "work" succeeds with one event, "family" raises. -/
def gb2 : GetBackend := fun c =>
  if c = "work" then some (okBackend [evWork])
  else if c = "family" then some failBackend
  else none

/-- A parse function that rejects everything (never consulted on paths that
only use defaults). -/
def noParse : ParseFn := fun _ => none

/-- An empty backend map. -/
def noBackend : GetBackend := fun _ => none

/-- Expected `list_events` payload for `accts2`/`gb2` over day 0 defaults. -/
def payload0 : EventsPayload :=
  { calendars_queried := ["work", "family"], start := 0, end_ := 86399,
    count := 1, events := [evWork], errors := some ["family: Connection failed"] }

/-!  Helper lemmas shared by the claim theorems.  -/

/-- `replace(hour=0, …)` of a midnight timestamp is itself. -/
theorem dayFloor_dayFloor (t : Nat) : dayFloor (dayFloor t) = dayFloor t := by
  show t / 86400 * 86400 / 86400 * 86400 = t / 86400 * 86400
  omega

/-- Closed form of the fetch loop when every queried backend is available:
events are the concatenation of the successful accounts' lists (in account
order) and the error list has exactly the failing accounts' entries. -/
theorem fetchAll_characterization (gb : GetBackend) (dtStart dtEnd : DateTime)
    (cals : List String) (h : ∀ c ∈ cals, (gb c).isSome) :
    (fetchAll gb dtStart dtEnd cals).1 = cals.flatMap (okEvents gb dtStart dtEnd) ∧
    (fetchAll gb dtStart dtEnd cals).2 = cals.filterMap (errEntry gb dtStart dtEnd) := by
  induction cals with
  | nil => exact ⟨rfl, rfl⟩
  | cons c rest ih =>
    obtain ⟨hev, herr⟩ := ih (fun x hx => h x (List.mem_cons_of_mem c hx))
    obtain ⟨b, hb⟩ := Option.isSome_iff_exists.mp (h c (List.mem_cons_self c rest))
    cases hres : b.list_events dtStart dtEnd with
    | ok es =>
      exact ⟨by simp [fetchAll, hb, hres, okEvents, hev],
             by simp [fetchAll, hb, hres, errEntry, herr]⟩
    | error e =>
      exact ⟨by simp [fetchAll, hb, hres, okEvents, hev],
             by simp [fetchAll, hb, hres, errEntry, herr]⟩

/-- A `filterMap` has as many entries as elements on which the function
fires. -/
theorem length_filterMap_isSome {α β : Type} (f : α → Option β) (l : List α) :
    (l.filterMap f).length = (l.filter (fun c => (f c).isSome)).length := by
  induction l with
  | nil => rfl
  | cons c rest ih =>
    cases hc : f c <;> simp [List.filterMap_cons, List.filter_cons, hc, ih]

/-- The merged list is sorted (stable insertion sort by start time). -/
theorem sortByStart_sorted (l : List CalendarEvent) : List.Sorted startLE (sortByStart l) :=
  List.sorted_insertionSort startLE l

/-- Sorting preserves the number of events. -/
theorem sortByStart_length (l : List CalendarEvent) : (sortByStart l).length = l.length :=
  List.length_insertionSort startLE l

/-!  Claim theorems.  -/

/-- C3: Partial-failure aggregation: whenever every queried account's
backend is available, the fetch loop of `list_events` returns exactly the
successful accounts' events (union in account order, events only from
accounts that did not raise) and exactly one error string `"{name}: {error}"`
per failing account; a raised error is caught per account and never aborts
the remaining accounts' fetches, and nothing is retried. -/
theorem aggregate_partial_failure (gb : GetBackend) (dtStart dtEnd : DateTime)
    (cals : List String) (h : ∀ c ∈ cals, (gb c).isSome) :
    (fetchAll gb dtStart dtEnd cals).1 = cals.flatMap (okEvents gb dtStart dtEnd) ∧
    (fetchAll gb dtStart dtEnd cals).2 = cals.filterMap (errEntry gb dtStart dtEnd) :=
  fetchAll_characterization gb dtStart dtEnd cals h

/-- C3 witness: "work" succeeds with one event while "family" raises — the
loop keeps work's event and records exactly one error entry for family. -/
theorem aggregate_partial_failure_witness :
    (∀ c ∈ ["work", "family"], (gb2 c).isSome) ∧
    ((fetchAll gb2 0 86399 ["work", "family"]).1 =
        ["work", "family"].flatMap (okEvents gb2 0 86399) ∧
      (fetchAll gb2 0 86399 ["work", "family"]).2 =
        ["work", "family"].filterMap (errEntry gb2 0 86399)) :=
  ⟨by decide, aggregate_partial_failure gb2 0 86399 ["work", "family"] (by decide)⟩

/-- C5 counterexample: with "work" returning one event and "family"
raising, `list_events` returns 1 event and 1 error; the claimed equation
`len(events) + count_of_failed_accounts = sum of successful per-account
event counts` reads 1 + 1 = 1 here and is false. -/
theorem aggregate_count_claim_false :
    list_events accts2 gb2 noParse 0 "" "" "" = LEResult.ok payload0 ∧
    ¬ (payload0.events.length + failedCount gb2 0 86399 ["work", "family"] =
        successTotal gb2 0 86399 ["work", "family"]) := by
  constructor
  · rfl
  · decide

/-- C5 (amended): with every queried backend available, the number of
merged (sorted) events equals the sum of the successful accounts' event
counts — no event of a successful account is dropped and no event is
attributed from a failed account — and the error list has exactly one entry
per failed account. -/
theorem aggregate_count_invariant (gb : GetBackend) (dtStart dtEnd : DateTime)
    (cals : List String) (h : ∀ c ∈ cals, (gb c).isSome) :
    (sortByStart (fetchAll gb dtStart dtEnd cals).1).length =
      successTotal gb dtStart dtEnd cals ∧
    (fetchAll gb dtStart dtEnd cals).2.length = failedCount gb dtStart dtEnd cals := by
  obtain ⟨hev, herr⟩ := fetchAll_characterization gb dtStart dtEnd cals h
  constructor
  · rw [sortByStart_length, hev, List.length_flatMap]
    rfl
  · rw [herr, failedCount, length_filterMap_isSome]

/-- C5 (amended) witness: on the concrete two-account setup the merged
event count is 1 = successful sum, and 1 error = 1 failed account. -/
theorem aggregate_count_invariant_witness :
    (∀ c ∈ ["work", "family"], (gb2 c).isSome) ∧
    ((sortByStart (fetchAll gb2 0 86399 ["work", "family"]).1).length =
        successTotal gb2 0 86399 ["work", "family"] ∧
      (fetchAll gb2 0 86399 ["work", "family"]).2.length =
        failedCount gb2 0 86399 ["work", "family"]) :=
  ⟨by decide, aggregate_count_invariant gb2 0 86399 ["work", "family"] (by decide)⟩

/-- C6: every successful `list_events` result carries its merged events
sorted non-decreasing by start time (ties unordered: `startLE` is
non-strict). -/
theorem merged_events_sorted (accounts : List CalendarAccount) (gb : GetBackend)
    (parse : ParseFn) (now : DateTime) (calendar start end_ : String) (p : EventsPayload)
    (h : list_events accounts gb parse now calendar start end_ = LEResult.ok p) :
    List.Sorted startLE p.events := by
  simp only [list_events] at h
  cases h1 : parseStartOrDefault parse now start with
  | error m => rw [h1] at h; simp at h
  | ok dtS =>
    rw [h1] at h
    dsimp only at h
    cases h2 : parseEndOrDefault parse dtS end_ with
    | error m => rw [h2] at h; simp at h
    | ok dtE =>
      rw [h2] at h
      dsimp only at h
      cases h3 : calendarsToQuery accounts calendar with
      | error m => rw [h3] at h; simp at h
      | ok cals =>
        rw [h3] at h
        dsimp only at h
        simp only [LEResult.ok.injEq] at h
        subst h
        exact sortByStart_sorted _

/-- C6 witness: the concrete day-0 query returns `payload0`, whose events
list is sorted by start. -/
theorem merged_events_sorted_witness : List.Sorted startLE payload0.events :=
  merged_events_sorted accts2 gb2 noParse 0 "" "" "" payload0 rfl

/-- C10: empty-registry asymmetry: `list_calendars` on an empty registry
returns an `{error}` ("No calendars configured"), while `list_events`
without a calendar argument succeeds with `calendars_queried = []`,
`count = 0`, no events and no `errors` key. -/
theorem empty_registry_asymmetry (gb : GetBackend) (parse : ParseFn) (now : DateTime) :
    list_calendars [] = LCResult.err "No calendars configured" ∧
    list_events [] gb parse now "" "" "" =
      LEResult.ok { calendars_queried := [], start := dayFloor now,
                    end_ := dayFloor now + 86399, count := 0, events := [], errors := none } := by
  constructor
  · rfl
  · simp [list_events, parseStartOrDefault, parseEndOrDefault, calendarsToQuery,
          fetchAll, sortByStart, List.insertionSort, endOfDay, dayFloor_dayFloor]

/-- Resolution of an omitted start argument: today 00:00. -/
theorem parseStart_default (parse : ParseFn) (now : DateTime) :
    parseStartOrDefault parse now "" = Except.ok (dayFloor now) := by
  simp [parseStartOrDefault]

/-- Resolution of a parseable start argument. -/
theorem parseStart_some (parse : ParseFn) (now : DateTime) (s : String) (d : DateTime)
    (hs : s ≠ "") (hd : parse s = some d) :
    parseStartOrDefault parse now s = Except.ok d := by
  simp [parseStartOrDefault, hs, hd]

/-- Resolution of an unparseable start argument. -/
theorem parseStart_err (parse : ParseFn) (now : DateTime) (s : String)
    (hs : s ≠ "") (hd : parse s = none) :
    parseStartOrDefault parse now s = Except.error ("Invalid start date: " ++ s) := by
  simp [parseStartOrDefault, hs, hd]

/-- Resolution of an omitted end argument: start's date at 23:59:59. -/
theorem parseEnd_default (parse : ParseFn) (d : DateTime) :
    parseEndOrDefault parse d "" = Except.ok (endOfDay d) := by
  simp [parseEndOrDefault]

/-- Resolution of an unparseable end argument. -/
theorem parseEnd_err (parse : ParseFn) (d : DateTime) (e : String)
    (he : e ≠ "") (hd : parse e = none) :
    parseEndOrDefault parse d e = Except.error ("Invalid end date: " ++ e) := by
  simp [parseEndOrDefault, he, hd]

/-- C7 counterexample: `update_event` with zero optional fields but an
unknown calendar name returns the unknown-calendar validation error, which
does not contain the "No fields" message — refuting "regardless of whether
the named calendar is valid or not". -/
theorem update_no_fields_claim_false :
    update_event [workAcct] noBackend noParse "nonexistent" "e1" "" "" "" "" "" =
      EvResult.err (unknownCalendarMsg [workAcct] "nonexistent") ∧
    ¬ mentions "No fields" (unknownCalendarMsg [workAcct] "nonexistent") :=
  ⟨rfl, by decide⟩

/-- C7 (amended): `update_event` with zero optional fields always errors;
because `_validate_calendar` runs first, the error is "No fields to update"
exactly when the named calendar passes validation, and the validation error
otherwise. In both cases no backend is consulted (the result is the same
for every backend map). -/
theorem update_event_no_fields (accounts : List CalendarAccount) (gb : GetBackend)
    (parse : ParseFn) (calendar event_id : String) :
    (validate_calendar accounts calendar = none →
      update_event accounts gb parse calendar event_id "" "" "" "" "" =
        EvResult.err "No fields to update") ∧
    (∀ m, validate_calendar accounts calendar = some m →
      update_event accounts gb parse calendar event_id "" "" "" "" "" = EvResult.err m) := by
  constructor
  · intro hv
    simp [update_event, hv, buildKwargs, parseOptField, kwargsEmpty]
  · intro m hv
    simp [update_event, hv]

/-- C7 (amended) witness: on the valid calendar "work" the empty update
errors with "No fields to update". -/
theorem update_event_no_fields_witness :
    validate_calendar [workAcct] "work" = none ∧
    update_event [workAcct] noBackend noParse "work" "e1" "" "" "" "" "" =
      EvResult.err "No fields to update" :=
  ⟨rfl, (update_event_no_fields [workAcct] noBackend noParse "work" "e1").1 rfl⟩

/-- C8: `list_events` date-range handling: an omitted start defaults to
today 00:00 local and an omitted end to the start's date at 23:59:59; a
start string accepted by the parser is used as given; an unparseable start
or end yields the corresponding `{error}` without querying any backend
(the result is identical for every backend map). -/
theorem list_events_date_handling (accounts : List CalendarAccount) (parse : ParseFn)
    (now : DateTime) (calendar s e : String) :
    (∀ gb p, list_events accounts gb parse now calendar "" "" = LEResult.ok p →
      p.start = dayFloor now ∧ p.end_ = dayFloor now + 86399) ∧
    (∀ gb p d, parse s = some d → s ≠ "" →
      list_events accounts gb parse now calendar s "" = LEResult.ok p →
      p.start = d ∧ p.end_ = dayFloor d + 86399) ∧
    (s ≠ "" → parse s = none →
      ∀ gb, list_events accounts gb parse now calendar s e =
        LEResult.err ("Invalid start date: " ++ s)) ∧
    (e ≠ "" → parse e = none →
      ∀ gb, list_events accounts gb parse now calendar "" e =
        LEResult.err ("Invalid end date: " ++ e)) := by
  refine ⟨?_, ?_, ?_, ?_⟩
  · intro gb p h
    simp only [list_events, parseStart_default, parseEnd_default] at h
    cases h3 : calendarsToQuery accounts calendar with
    | error m => rw [h3] at h; simp at h
    | ok cals =>
      rw [h3] at h
      dsimp only at h
      simp only [LEResult.ok.injEq] at h
      subst h
      exact ⟨rfl, by simp [endOfDay, dayFloor_dayFloor]⟩
  · intro gb p d hd hs h
    simp only [list_events, parseStart_some parse now s d hs hd, parseEnd_default] at h
    cases h3 : calendarsToQuery accounts calendar with
    | error m => rw [h3] at h; simp at h
    | ok cals =>
      rw [h3] at h
      dsimp only at h
      simp only [LEResult.ok.injEq] at h
      subst h
      exact ⟨rfl, rfl⟩
  · intro hs hd gb
    simp only [list_events, parseStart_err parse now s hs hd]
  · intro he hd gb
    simp only [list_events, parseStart_default, parseEnd_err parse (dayFloor now) e he hd]

/-- C8 witness: the unparseable start string "bad" makes the concrete call
fail with the invalid-start error. -/
theorem list_events_date_handling_witness :
    ("bad" ≠ "" ∧ noParse "bad" = none) ∧
    list_events accts2 gb2 noParse 5 "" "bad" "" =
      LEResult.err ("Invalid start date: " ++ "bad") :=
  ⟨⟨by decide, rfl⟩,
   (list_events_date_handling accts2 noParse 5 "" "bad" "").2.2.1 (by decide) rfl gb2⟩

/-- C9: on a valid calendar with an available backend, `delete_event`
succeeds iff the backend reports a successful deletion (`True`); a backend
`False` yields the "Event not found" `{error}`, never a success result. -/
theorem delete_event_semantics (accounts : List CalendarAccount) (gb : GetBackend)
    (calendar event_id : String) (b : Backend)
    (hv : validate_calendar accounts calendar = none)
    (hb : gb calendar = some b) :
    (b.delete_event event_id = Except.ok false →
      delete_event accounts gb calendar event_id =
        DelResult.err ("Event not found: " ++ event_id)) ∧
    ((∃ m, delete_event accounts gb calendar event_id = DelResult.ok m) ↔
      b.delete_event event_id = Except.ok true) ∧
    (b.delete_event event_id = Except.ok true →
      delete_event accounts gb calendar event_id =
        DelResult.ok ("Event deleted from " ++ calendar)) := by
  have hd : delete_event accounts gb calendar event_id =
      match b.delete_event event_id with
      | Except.ok true => DelResult.ok ("Event deleted from " ++ calendar)
      | Except.ok false => DelResult.err ("Event not found: " ++ event_id)
      | Except.error err => DelResult.err ("Failed to delete event: " ++ err) := by
    simp only [delete_event, hv, hb]
  refine ⟨?_, ⟨?_, ?_⟩, ?_⟩
  · intro hfalse; rw [hd, hfalse]
  · rintro ⟨m, hm⟩
    rw [hd] at hm
    cases hres : b.delete_event event_id with
    | ok bv =>
      cases bv
      · rw [hres] at hm; simp at hm
      · rfl
    | error err => rw [hres] at hm; simp at hm
  · intro htrue; exact ⟨_, by rw [hd, htrue]⟩
  · intro htrue; rw [hd, htrue]

/-- A backend whose `delete_event` reports nothing was deleted. -/
def notFoundBackend : Backend := { failBackend with delete_event := fun _ => Except.ok false }

/-- Backend map exposing `notFoundBackend` as "work". -/
def gbNF : GetBackend := fun c => if c = "work" then some notFoundBackend else none

/-- C9 witness: deleting an unknown event id on "work" yields the
"Event not found" error. -/
theorem delete_event_semantics_witness :
    validate_calendar [workAcct] "work" = none ∧
    delete_event [workAcct] gbNF "work" "nope" = DelResult.err ("Event not found: " ++ "nope") :=
  ⟨rfl, (delete_event_semantics [workAcct] gbNF "work" "nope" notFoundBackend rfl rfl).1 rfl⟩

/-- The calendar names listed by `list_calendars_vis` on a nonempty
registry are the visible accounts' names. -/
theorem lcNames_vis (accounts : List CalendarAccount) (uid : Option Int)
    (hne : accounts.isEmpty = false) :
    lcNames (list_calendars_vis accounts uid) =
      (visible_accounts accounts uid).map (fun x => x.name) := by
  simp [list_calendars_vis, hne, lcNames, List.map_map, Function.comp]

/-- C1: Visibility policy (spec-modelled layer): an unset requester sees
every account; a set requester sees an account iff its visibility is
"shared" or it is "owner" with `owner_id` equal to the requester; in
particular `list_calendars` with the owner's user_id lists an
owner-visibility account and with any other user_id omits it. -/
theorem visibility_policy_correct (accounts : List CalendarAccount) (a : CalendarAccount) :
    visible_accounts accounts none = accounts ∧
    (∀ uid : Int, a ∈ visible_accounts accounts (some uid) ↔
      a ∈ accounts ∧ (a.visibility = "shared" ∨
        (a.visibility = "owner" ∧ a.owner_id = some uid))) ∧
    (∀ o u : Int, (accounts.map (fun x => x.name)).Nodup → a ∈ accounts →
      a.visibility = "owner" → a.owner_id = some o →
      a.name ∈ lcNames (list_calendars_vis accounts (some o)) ∧
      (u ≠ o → a.name ∉ lcNames (list_calendars_vis accounts (some u)))) := by
  have hmem : ∀ (y : CalendarAccount) (uid : Int),
      y ∈ visible_accounts accounts (some uid) ↔
      y ∈ accounts ∧ (y.visibility = "shared" ∨
        (y.visibility = "owner" ∧ y.owner_id = some uid)) := by
    intro y uid
    simp [visible_accounts, List.mem_filter, account_visible]
  refine ⟨rfl, hmem a, ?_⟩
  intro o u hnodup ha hvis hoid
  have hne : accounts.isEmpty = false := by
    cases accounts with
    | nil => cases ha
    | cons x xs => rfl
  constructor
  · rw [lcNames_vis accounts (some o) hne]
    exact List.mem_map_of_mem _ ((hmem a o).mpr ⟨ha, Or.inr ⟨hvis, hoid⟩⟩)
  · intro hu hin
    rw [lcNames_vis accounts (some u) hne] at hin
    obtain ⟨x, hxvis, hxname⟩ := List.mem_map.mp hin
    have hxacc : x ∈ accounts := ((hmem x u).mp hxvis).1
    have hxa : x = a := List.inj_on_of_nodup_map hnodup hxacc ha hxname
    subst hxa
    rcases ((hmem x u).mp hxvis).2 with hsh | ⟨_, hownu⟩
    · exact absurd (hvis.symm.trans hsh) (by decide)
    · have hou : some o = some u := hoid.symm.trans hownu
      injection hou with hou'
      exact hu hou'.symm

/-- C1 witness: in the two-account registry, "work" (owner 1) is listed for
user 1 and omitted for user 2. -/
theorem visibility_policy_correct_witness :
    "work" ∈ lcNames (list_calendars_vis accts2 (some 1)) ∧
    "work" ∉ lcNames (list_calendars_vis accts2 (some 2)) := by
  have h := (visibility_policy_correct accts2 workAcct).2.2 1 2 (by decide) (by decide) rfl rfl
  exact ⟨h.1, h.2 (by decide)⟩

/-- Every access-denied error text carries the marker. -/
theorem access_msg_marker (c : String) : hasDeniedMarker (accessDeniedMsg c) := by
  refine ⟨": calendar '".data ++ (c.data ++ "' is not visible to this user".data), ?_⟩
  have hlitd : ("Access denied: calendar '" : String).data =
      "Access denied".data ++ ": calendar '".data := by decide
  simp [accessDeniedMsg, String.data_append, hlitd]

/-- No unknown-calendar error text carries the access-denied marker. -/
theorem unknown_msg_no_marker (accounts : List CalendarAccount) (c : String) :
    ¬ hasDeniedMarker (unknownCalendarMsg accounts c) := by
  rintro ⟨t, ht⟩
  have hsplit : unknownCalendarMsg accounts c =
      "Unknown calendar '" ++ (c ++ ("'. Available: " ++ availableList accounts)) := by
    simp [unknownCalendarMsg, String.append_assoc]
  have h1 : (unknownCalendarMsg accounts c).data.take 13 = "Access denied".data := by
    rw [← ht, List.take_append_of_le_length (by decide)]
    decide
  have h2 : (unknownCalendarMsg accounts c).data.take 13 = "Unknown calen".data := by
    rw [hsplit, String.data_append, List.take_append_of_le_length (by decide)]
    decide
  exact absurd (h1.symm.trans h2) (by decide)

/-- C2: (spec-modelled layer) every single-named-account operation invoked
by a set requester on an account that exists in the registry but is not
visible to that requester fails with the access-denied error, for every
backend map — the visibility filter runs before any backend is constructed
or invoked — and the error text carries the "Access denied" marker, which
no unknown-calendar error text carries. (`list_events` is shown at default
dates, since date parsing precedes validation in the tool body.) -/
theorem denied_account_distinct_error (accounts : List CalendarAccount)
    (cal : String) (uid : Int) (a : CalendarAccount)
    (hCal : cal ≠ "")
    (hFind : accounts.find? (fun x => x.name == cal) = some a)
    (hVis : account_visible a (some uid) = false) :
    validate_calendar_vis accounts cal (some uid) = some (accessDeniedMsg cal) ∧
    hasDeniedMarker (accessDeniedMsg cal) ∧
    (∀ (accounts' : List CalendarAccount) (c' : String),
      ¬ hasDeniedMarker (unknownCalendarMsg accounts' c')) ∧
    (∀ gb parse now, list_events_vis accounts gb parse now cal "" "" (some uid) =
      LEResult.err (accessDeniedMsg cal)) ∧
    (∀ gb eid, get_event_vis accounts gb cal eid (some uid) =
      EvResult.err (accessDeniedMsg cal)) ∧
    (∀ gb parse title s e d l,
      create_event_vis accounts gb parse cal title s e d l (some uid) =
        EvResult.err (accessDeniedMsg cal)) ∧
    (∀ gb parse eid title s e d l,
      update_event_vis accounts gb parse cal eid title s e d l (some uid) =
        EvResult.err (accessDeniedMsg cal)) ∧
    (∀ gb eid, delete_event_vis accounts gb cal eid (some uid) =
      DelResult.err (accessDeniedMsg cal)) := by
  have hne : accounts.isEmpty = false := by
    cases accounts with
    | nil => simp at hFind
    | cons x xs => rfl
  have hval : validate_calendar_vis accounts cal (some uid) = some (accessDeniedMsg cal) := by
    simp [validate_calendar_vis, hne, hFind, hVis]
  refine ⟨hval, access_msg_marker cal, unknown_msg_no_marker, ?_, ?_, ?_, ?_, ?_⟩
  · intro gb parse now
    simp [list_events_vis, parseStart_default, parseEnd_default, calendarsToQueryVis, hCal, hval]
  · intro gb eid
    simp [get_event_vis, hval]
  · intro gb parse title s e d l
    simp [create_event_vis, hval]
  · intro gb parse eid title s e d l
    simp [update_event_vis, hval]
  · intro gb eid
    simp [delete_event_vis, hval]

/-- C2 witness: user 2 requesting the owner-restricted "work" calendar gets
the access-denied error (shown via `get_event`), regardless of backends. -/
theorem denied_account_distinct_error_witness :
    validate_calendar_vis accts2 "work" (some 2) = some (accessDeniedMsg "work") ∧
    get_event_vis accts2 noBackend "work" "e1" (some 2) =
      EvResult.err (accessDeniedMsg "work") := by
  have h := denied_account_distinct_error accts2 "work" 2 workAcct
    (by decide) (by decide) (by decide)
  exact ⟨h.1, h.2.2.2.2.1 noBackend "e1"⟩

/-- The 30-minute message mentions "30 Minuten". -/
theorem msg30_mentions_minutes (label title : String) :
    mentions "30 Minuten" (msg30 label title) := by
  have h1 : ("30 Minuten" : String).data <:+: (") beginnt in 30 Minuten" : String).data := by
    decide
  have h2 : ((") beginnt in 30 Minuten" : String).data) <:+: (msg30 label title).data := by
    refine List.IsSuffix.isInfix ⟨("Termin '" ++ title ++ "' (" ++ label).data, ?_⟩
    simp [msg30, String.data_append]
  exact h1.trans h2

/-- The 30-minute message mentions the account's label. -/
theorem msg30_mentions_label (label title : String) :
    mentions label (msg30 label title) := by
  refine ⟨("Termin '" ++ title ++ "' (").data, (") beginnt in 30 Minuten" : String).data, ?_⟩
  simp [msg30, String.data_append]

/-- The 5-minute message mentions "5 Minuten". -/
theorem msg5_mentions_minutes (label title : String) :
    mentions "5 Minuten" (msg5 label title) := by
  have h1 : ("5 Minuten" : String).data <:+: (") beginnt in 5 Minuten" : String).data := by
    decide
  have h2 : ((") beginnt in 5 Minuten" : String).data) <:+: (msg5 label title).data := by
    refine List.IsSuffix.isInfix ⟨("Termin '" ++ title ++ "' (" ++ label).data, ?_⟩
    simp [msg5, String.data_append]
  exact h1.trans h2

/-- Every notification a single event can contribute carries `tts = true`. -/
theorem notif_for_event_tts (account label : String) (now : DateTime) (e : CalendarEvent)
    (n : Notification) (hn : n ∈ notif_for_event account label now e) : n.tts = true := by
  simp only [notif_for_event] at hn
  split at hn
  · simp at hn; subst hn; rfl
  · split at hn
    · simp at hn; subst hn; rfl
    · simp at hn

/-- C4: (spec-modelled layer) notification thresholds: an event whose
rounded minutes-until-start equal exactly 30 contributes exactly one
"info" notification whose message mentions "30 Minuten" and the account's
label and whose dedup key is `calendar:{account}:{event_id}:30min`; exactly
5 contributes exactly one "warning" mentioning "5 Minuten" with the
`:5min` dedup key; any other value (e.g. 40) contributes none; and every
notification emitted by `pending_notifications` carries `tts = true`. -/
theorem notification_thresholds (account label : String) (now : DateTime) (e : CalendarEvent) :
    (roundMinutes (e.start - now) = 30 →
      notif_for_event account label now e =
        [{ event_type := "calendar.reminder_upcoming", title := e.title,
           message := msg30 label e.title, urgency := "info",
           dedup_key := dedupKey account e.id "30min",
           data_calendar := account, data_event_id := e.id, tts := true }] ∧
      mentions "30 Minuten" (msg30 label e.title) ∧
      mentions label (msg30 label e.title)) ∧
    (roundMinutes (e.start - now) = 5 →
      notif_for_event account label now e =
        [{ event_type := "calendar.reminder_upcoming", title := e.title,
           message := msg5 label e.title, urgency := "warning",
           dedup_key := dedupKey account e.id "5min",
           data_calendar := account, data_event_id := e.id, tts := true }] ∧
      mentions "5 Minuten" (msg5 label e.title)) ∧
    (roundMinutes (e.start - now) ≠ 30 → roundMinutes (e.start - now) ≠ 5 →
      notif_for_event account label now e = []) ∧
    (∀ suffix eid, dedupKey account eid suffix =
      "calendar:" ++ account ++ ":" ++ eid ++ ":" ++ suffix) ∧
    (∀ accounts gb lookahead uid n,
      n ∈ pending_notifications accounts gb now lookahead uid → n.tts = true) := by
  refine ⟨?_, ?_, ?_, fun _ _ => rfl, ?_⟩
  · intro h30
    exact ⟨by simp [notif_for_event, h30],
           msg30_mentions_minutes label e.title, msg30_mentions_label label e.title⟩
  · intro h5
    exact ⟨by simp [notif_for_event, h5], msg5_mentions_minutes label e.title⟩
  · intro h30 h5
    simp [notif_for_event, beq_iff_eq, h30, h5]
  · intro accounts gb lookahead uid n hn
    simp only [pending_notifications, List.mem_flatMap] at hn
    obtain ⟨a, _, hn2⟩ := hn
    cases hgb : gb a.name with
    | none => rw [hgb] at hn2; simp at hn2
    | some b =>
      rw [hgb] at hn2
      dsimp only at hn2
      cases hres : b.list_events now (now + lookahead * 60) with
      | error err => rw [hres] at hn2; simp at hn2
      | ok evs =>
        rw [hres] at hn2
        dsimp only at hn2
        rw [List.mem_flatMap] at hn2
        obtain ⟨ev, _, hn3⟩ := hn2
        exact notif_for_event_tts a.name a.label now ev n hn3

/-- Event exactly 30 rounded minutes out from `now = 0`. -/
def evt30 : CalendarEvent :=
  { id := "e1", calendar := "work", title := "Team Meeting", start := 1800, end_ := 5400 }

/-- C4 witness: the concrete event 1800 seconds out rounds to 30 minutes
and contributes exactly the info notification. -/
theorem notification_thresholds_witness :
    roundMinutes (evt30.start - 0) = 30 ∧
    notif_for_event "work" "Firmenkalender" 0 evt30 =
      [{ event_type := "calendar.reminder_upcoming", title := evt30.title,
         message := msg30 "Firmenkalender" evt30.title, urgency := "info",
         dedup_key := dedupKey "work" evt30.id "30min",
         data_calendar := "work", data_event_id := evt30.id, tts := true }] :=
  ⟨by decide, ((notification_thresholds "work" "Firmenkalender" 0 evt30).1 (by decide)).1⟩

end RenfieldCalendar
